import Mathlib

/-!
# CEAT tyre-health page: a shallow embedding of `src/App.jsx`

The component `App` holds eight `useState` fields, two refs (`videoRef`,
`canvasRef`) and six handlers.  The handlers are embedded as functions on an
explicit state; asynchronous work (the `FileReader`, `getUserMedia`, `fetch`,
`getCurrentPosition`) is embedded as a pending item in the state plus a
completion event that carries what the browser or the endpoint answered.

Conventions of the embedding.
* `JSON.parse` is a browser builtin: it is a parameter `jsonParse` of every
  definition that calls it.
* JavaScript numbers are only stored and compared in `App.jsx`; the embedding
  keeps the integer ones.
* The body of the endpoint's answer is typed (`ApiResult`): candidates,
  content, parts and text may each be absent, and the two lists may be empty.
  The text of a part is free: whatever `JSON.parse` makes of it is a `JVal`.
* A camera stream is a natural number; `liveStreams` lists the streams whose
  tracks have not been stopped.
* `canvas.toDataURL` is a browser builtin: `toDataURL` gives its value from the
  size of the canvas and the encoding of the drawn frame.
-/

namespace CeatTyre

/-! ## Data model -/

/-- JavaScript values that `JSON.parse` can return, plus `undefined` (what a
property read yields for an absent property). -/
inductive JVal where
  | undefined : JVal
  | null : JVal
  | bool (b : Bool) : JVal
  | num (n : Int) : JVal
  | str (s : String) : JVal
  | arr (xs : List JVal) : JVal
  | obj (kvs : List (String × JVal)) : JVal

/-- Strict comparison `v !== null`. -/
def JVal.notNull : JVal → Bool
  | .null => false
  | _ => true

/-- Property read `v.key` for a key that no prototype defines (`score`,
`recommendation`, `analysisDetails`): a `TypeError` on `null` and `undefined`,
the stored value on an object that has the key, `undefined` otherwise. -/
def JVal.getProp (v : JVal) (key : String) : Except String JVal :=
  match v with
  | .undefined => .error ("Cannot read properties of undefined (reading " ++ key ++ ")")
  | .null => .error ("Cannot read properties of null (reading " ++ key ++ ")")
  | .obj kvs =>
    match kvs.lookup key with
    | some x => .ok x
    | none => .ok .undefined
  | _ => .ok .undefined

/-- Test that `v` is an object with a property `key` of its own. -/
def JVal.hasField (v : JVal) (key : String) : Bool :=
  match v with
  | .obj kvs => (kvs.lookup key).isSome
  | _ => false

/-- Value of `userLocation` when it is not `null`: the two coordinates read
from `position.coords`. -/
structure Coords where
  latitude : Int
  longitude : Int
deriving DecidableEq

/-- The eight `useState` fields of `App` (lines 6-13). -/
structure UIState where
  tyreImage : Option String
  healthScore : JVal
  recommendation : JVal
  analysisDetails : JVal
  userLocation : Option Coords
  loading : Bool
  errorMessage : String
  currentStep : Nat

/-- Initial values given to `useState` (lines 6-13). -/
def initialUI : UIState :=
  { tyreImage := none
    healthScore := .null
    recommendation := .str ""
    analysisDetails := .str ""
    userLocation := none
    loading := false
    errorMessage := ""
    currentStep := 1 }

/-- A file chosen in the upload input, represented by the data URL that
`FileReader.readAsDataURL` produces for it. -/
structure File where
  dataURL : String
deriving DecidableEq

/-- The `inlineData` part of the payload that `detectTyreHealth` posts
(lines 115-118); `data` is `none` when `split(',')[1]` is `undefined`. -/
structure InferenceRequest where
  mimeType : String
  data : Option String
deriving DecidableEq

/-- Everything the handlers read or write: the React state, the `<video>`
element behind `videoRef` (`none` while it is not mounted, otherwise its
`srcObject`), the camera streams with live tracks, and the asynchronous calls
that have been started and have not completed. -/
structure World where
  ui : UIState
  video : Option (Option Nat)
  liveStreams : List Nat
  nextStream : Nat
  inFlight : List InferenceRequest
  pendingReads : List File
  pendingCamera : Nat
  pendingGeo : Nat

/-- State of a freshly loaded page: step 1, nothing mounted but the welcome
banner, nothing pending. -/
def initialWorld : World :=
  { ui := initialUI
    video := none
    liveStreams := []
    nextStream := 0
    inFlight := []
    pendingReads := []
    pendingCamera := 0
    pendingGeo := 0 }

/-! ## Data URLs and the capture canvas -/

/-- The text `data:<mediatype>;base64,<payload>`. -/
def dataURL (mediaType payload : String) : String :=
  "data:" ++ mediaType ++ ";base64," ++ payload

/-- Media type named by a data URL: the text between `data:` and the first
`;` or `,`; `none` when the text does not start with `data:`. -/
def mediaTypeOf (url : String) : Option String :=
  match url.toList with
  | 'd' :: 'a' :: 't' :: 'a' :: ':' :: rest =>
    some (String.mk (rest.takeWhile (fun c => c != ';' && c != ',')))
  | _ => none

/-- What the video element offers when the photo is taken: `videoWidth` and
`videoHeight` (both 0 while the element has no video data), and the base64
text of the encoding of the frame that `drawImage` copies to the canvas. -/
structure Frame where
  videoWidth : Nat
  videoHeight : Nat
  encoded : String
deriving DecidableEq

/-- `canvas.toDataURL(type)` for a canvas of the given size, for a type the
browser encodes (PNG always is one): a canvas whose bitmap has no pixels
yields `data:,`, any other the data URL of the encoded bitmap. -/
def toDataURL (type : String) (width height : Nat) (encoded : String) : String :=
  if width = 0 ∨ height = 0 then "data:," else dataURL type encoded

/-! ## Camera handling -/

/-- The block repeated at lines 34-38, 74-78 and 228-232: when the video
element is mounted and holds a stream, stop every track of that stream and
clear `srcObject`. -/
def closeCamera (w : World) : World :=
  match w.video with
  | some (some stream) =>
    { w with liveStreams := w.liveStreams.filter (fun t => t != stream), video := some none }
  | _ => w

/-- `startCamera` up to the `await` (lines 46-48): clear the error and ask for
the camera. -/
def startCamera (w : World) : World :=
  { w with ui := { w.ui with errorMessage := "" }, pendingCamera := w.pendingCamera + 1 }

/-- Rest of `startCamera` (lines 49-56) once `getUserMedia` settles: a granted
stream is attached to the video element if that element is mounted; a refusal
sets the error message. -/
def startCameraDone (w : World) (granted : Bool) : World :=
  if granted then
    let stream := w.nextStream
    let w1 := { w with liveStreams := stream :: w.liveStreams, nextStream := stream + 1,
                       pendingCamera := w.pendingCamera - 1 }
    match w1.video with
    | some _ => { w1 with video := some (some stream) }
    | none => w1
  else
    { w with ui := { w.ui with errorMessage :=
        "Could not access camera. Please ensure permissions are granted in your browser settings." },
             pendingCamera := w.pendingCamera - 1 }

/-- `capturePhoto` (lines 60-80): with both refs set (they point into the
step-2 block, so they are set together) the canvas takes the size of the
video, the frame is drawn, `toDataURL('image/png')` of the canvas becomes the
image, score, texts and error are cleared and the camera is released. -/
def capturePhoto (w : World) (frame : Frame) : World :=
  match w.video with
  | some _ =>
    let width := frame.videoWidth
    let height := frame.videoHeight
    let imageData := toDataURL "image/png" width height frame.encoded
    closeCamera { w with ui := { w.ui with tyreImage := some imageData, healthScore := .null,
                                           recommendation := .str "", analysisDetails := .str "",
                                           errorMessage := "" } }
  | none => w

/-! ## Image upload -/

/-- `handleImageChange` (lines 23-42) up to `readAsDataURL`: with a file a
read is started, without one nothing happens. -/
def handleImageChange (w : World) (file : Option File) : World :=
  match file with
  | some f => { w with pendingReads := w.pendingReads ++ [f] }
  | none => w

/-- The `onloadend` callback (lines 27-39); `result` is `reader.result`, the
data URL, or `null` when the read failed. -/
def onloadend (w : World) (result : Option String) : World :=
  closeCamera { w with ui := { w.ui with tyreImage := result, healthScore := .null,
                                         recommendation := .str "", analysisDetails := .str "",
                                         errorMessage := "" } }

/-! ## Reset -/

/-- `resetApp` (lines 219-233). -/
def resetApp (w : World) : World :=
  closeCamera { w with ui := { w.ui with tyreImage := none, healthScore := .null,
                                         recommendation := .str "", analysisDetails := .str "",
                                         userLocation := none, loading := false,
                                         errorMessage := "", currentStep := 1 } }

/-! ## Inference call -/

/-- Truth test `!tyreImage`: `null` and the empty string are falsy. -/
def noImage (tyreImage : Option String) : Bool :=
  match tyreImage with
  | none => true
  | some s => s == ""

/-- Pieces of a character list between occurrences of `sep`, as
`String.prototype.split` with a one-character separator returns them. -/
def splitChars (sep : Char) : List Char → List (List Char)
  | [] => [[]]
  | c :: cs =>
    if c = sep then [] :: splitChars sep cs
    else
      match splitChars sep cs with
      | [] => [[c]]
      | h :: t => (c :: h) :: t

/-- `tyreImage.split(',')[1]` (line 93); `none` stands for `undefined`. -/
def base64ImageData (tyreImage : String) : Option String :=
  ((splitChars ',' tyreImage.toList).get? 1).map String.mk

/-- `detectTyreHealth` up to `await fetch` (lines 83-144): the guard on a
missing image, then the loading flag, the cleared error and the posted
request. -/
def detectTyreHealth (w : World) : World :=
  match w.ui.tyreImage with
  | none =>
    { w with ui := { w.ui with errorMessage := "Please upload or capture an image of the tyre first." } }
  | some img =>
    if img == "" then
      { w with ui := { w.ui with errorMessage := "Please upload or capture an image of the tyre first." } }
    else
      { w with ui := { w.ui with loading := true, errorMessage := "" },
               inFlight := w.inFlight ++ [{ mimeType := "image/png", data := base64ImageData img }] }

/-- One element of `content.parts` in the endpoint's answer. -/
structure Part where
  text : Option String

/-- The `content` of a candidate. -/
structure Content where
  parts : Option (List Part)

/-- One element of `candidates`. -/
structure Candidate where
  content : Option Content

/-- Body of the endpoint's answer as `response.json()` yields it; an absent
field is `none`. -/
structure ApiResult where
  candidates : Option (List Candidate)

/-- How the `fetch` of `detectTyreHealth` can end: the promise rejects, the
status is not ok, the body cannot be read as JSON, or a body arrives. -/
inductive FetchOutcome where
  | rejected (message : String) : FetchOutcome
  | notOk (statusText : String) : FetchOutcome
  | badBody (message : String) : FetchOutcome
  | ok (result : ApiResult) : FetchOutcome

/-- The test of lines 153-155 followed by the read of line 156: `none` when
the test fails, otherwise the value of `parts[0].text` (`some none` when that
part has no text). -/
def responseText (result : ApiResult) : Option (Option String) :=
  match result.candidates with
  | some (c0 :: _) =>
    match c0.content with
    | some content =>
      match content.parts with
      | some (p0 :: _) => some p0.text
      | _ => none
    | none => none
  | _ => none

/-- Argument conversion of `JSON.parse`: `undefined` is parsed as the text
`undefined`. -/
def jsonArg (text : Option String) : String :=
  match text with
  | some t => t
  | none => "undefined"

/-- The `try` block of `detectTyreHealth` after the `await` (lines 146-164):
the state the setters have produced, and the message of the error thrown, if
one was. -/
def detectTry (jsonParse : String → Except String JVal) (ui : UIState) :
    FetchOutcome → UIState × Option String
  | .rejected message => (ui, some message)
  | .notOk statusText => (ui, some ("API error: " ++ statusText))
  | .badBody message => (ui, some message)
  | .ok result =>
    match responseText result with
    | none => ({ ui with errorMessage := "AI detection failed: Unexpected response structure." }, none)
    | some jsonText =>
      match jsonParse (jsonArg jsonText) with
      | .error message => (ui, some message)
      | .ok parsedJson =>
        match parsedJson.getProp "score" with
        | .error message => (ui, some message)
        | .ok score =>
          let ui1 := { ui with healthScore := score }
          match parsedJson.getProp "recommendation" with
          | .error message => (ui1, some message)
          | .ok recommendation =>
            let ui2 := { ui1 with recommendation := recommendation }
            match parsedJson.getProp "analysisDetails" with
            | .error message => (ui2, some message)
            | .ok analysisDetails =>
              ({ ui2 with analysisDetails := analysisDetails, currentStep := 3 }, none)

/-- Rest of `detectTyreHealth` after the `await` (lines 146-170): the `try`
block, the `catch` that turns a thrown error into a message, and the `finally`
that clears the loading flag. -/
def detectTyreHealthDone (jsonParse : String → Except String JVal) (ui : UIState)
    (o : FetchOutcome) : UIState :=
  match detectTry jsonParse ui o with
  | (ui1, some message) =>
    { ui1 with errorMessage := "Error processing image: " ++ message ++ ". Please try again.",
               loading := false }
  | (ui1, none) => { ui1 with loading := false }

/-! ## Geolocation -/

/-- A `GeolocationPositionError`: its `code` and `message`. -/
structure GeoError where
  code : Nat
  message : String
deriving DecidableEq

/-- Initial value of the local `geoErrorMessage` (line 188); every branch of
the switch overwrites it. -/
def geoPlaceholder : String := "An unknown error occurred."

/-- The switch of lines 189-202.  The constants `PERMISSION_DENIED`,
`POSITION_UNAVAILABLE` and `TIMEOUT` of the error object are 1, 2 and 3. -/
def geoErrorMessage (error : GeoError) : String :=
  match error.code with
  | 1 => "You denied location access. Please enable it in browser settings to use this feature."
  | 2 => "Location information is unavailable. Please check your device's location settings."
  | 3 => "The request to get your location timed out. Please try again."
  | _ =>
    "Geolocation error: " ++ (if error.message = "" then "Unknown error" else error.message) ++ "."

/-- `getGeolocation` (lines 174-216) up to the browser call; `supported` is
the truth value of `navigator.geolocation`. -/
def getGeolocation (w : World) (supported : Bool) : World :=
  let w1 := { w with ui := { w.ui with loading := true, errorMessage := "" } }
  if supported then { w1 with pendingGeo := w1.pendingGeo + 1 }
  else
    { w1 with ui := { w1.ui with errorMessage := "Geolocation is not supported by your browser.",
                                 loading := false } }

/-- The success callback (lines 179-185). -/
def getGeolocationSuccess (w : World) (coords : Coords) : World :=
  { w with ui := { w.ui with userLocation := some coords, loading := false },
           pendingGeo := w.pendingGeo - 1 }

/-- The error callback (lines 186-205). -/
def getGeolocationError (w : World) (error : GeoError) : World :=
  { w with ui := { w.ui with errorMessage := geoErrorMessage error, loading := false },
           pendingGeo := w.pendingGeo - 1 }

/-! ## What the page renders -/

/-- Welcome block (lines 247-264): the start button. -/
def offersStart (ui : UIState) : Bool := ui.currentStep == 1

/-- Scan block (lines 267-342): the upload input, the camera button and the
canvas and video elements are rendered exactly at step 2. -/
def offersScan (ui : UIState) : Bool := ui.currentStep == 2

/-- Analyze button (lines 313-315): rendered at step 2 and enabled unless
`loading || !tyreImage`. -/
def offersAnalyze (ui : UIState) : Bool :=
  ui.currentStep == 2 && !(ui.loading || noImage ui.tyreImage)

/-- Results block (line 345): rendered when `currentStep === 3 &&
healthScore !== null`; it holds the outlet button and a Start Over button. -/
def offersResults (ui : UIState) : Bool :=
  ui.currentStep == 3 && ui.healthScore.notNull

/-- Location button (lines 378-383): rendered at step 4 while `userLocation`
is `null`, enabled unless `loading`. -/
def offersGetLocation (ui : UIState) : Bool :=
  ui.currentStep == 4 && ui.userLocation.isNone && !ui.loading

/-- Start Over buttons bound to `resetApp`: in the scan block (line 336), in
the results block (line 366) and in the location block (line 416). -/
def offersReset (ui : UIState) : Bool :=
  offersScan ui || offersResults ui || ui.currentStep == 4

/-! ## Events and the transition function -/

/-- Answer of `getCurrentPosition`. -/
inductive GeoResult where
  | success (coords : Coords) : GeoResult
  | failure (error : GeoError) : GeoResult

/-- User actions on the rendered controls, and completions of the pending
asynchronous calls. -/
inductive Event where
  | start : Event
  | selectFile (file : Option File) : Event
  | readDone (i : Nat) (success : Bool) : Event
  | openCamera : Event
  | cameraDone (granted : Bool) : Event
  | capture (frame : Frame) : Event
  | analyze : Event
  | detectDone (i : Nat) (o : FetchOutcome) : Event
  | findOutlet : Event
  | getLocation (supported : Bool) : Event
  | geoDone (r : GeoResult) : Event
  | startOver : Event

/-- Re-render after a handler ran: the video element exists exactly while the
scan block is rendered; a newly mounted element holds no stream, and an
unmounted one leaves `videoRef.current` null.  Unmounting the element stops
no track: only `track.stop()` does, so `liveStreams` is kept. -/
def commit (w : World) : World :=
  if w.ui.currentStep == 2 then
    match w.video with
    | none => { w with video := some none }
    | some _ => w
  else { w with video := none }

/-- One event.  A user action is possible when its control is rendered and
enabled, a completion when the call it completes is pending; otherwise the
result is `none`.  The capture button is admitted throughout step 2: its
render condition reads `videoRef.current?.srcObject` as of the last render,
and `capturePhoto` has its own guards. -/
def step (jsonParse : String → Except String JVal) (w : World) : Event → Option World
  | .start =>
    if offersStart w.ui then some (commit { w with ui := { w.ui with currentStep := 2 } }) else none
  | .selectFile file =>
    if offersScan w.ui then some (commit (handleImageChange w file)) else none
  | .readDone i success =>
    match w.pendingReads.get? i with
    | some f =>
      some (commit (onloadend { w with pendingReads := w.pendingReads.eraseIdx i }
        (if success then some f.dataURL else none)))
    | none => none
  | .openCamera =>
    if offersScan w.ui then some (commit (startCamera w)) else none
  | .cameraDone granted =>
    if 0 < w.pendingCamera then some (commit (startCameraDone w granted)) else none
  | .capture frame =>
    if offersScan w.ui then some (commit (capturePhoto w frame)) else none
  | .analyze =>
    if offersAnalyze w.ui then some (commit (detectTyreHealth w)) else none
  | .detectDone i o =>
    match w.inFlight.get? i with
    | some _ =>
      some (commit { w with ui := detectTyreHealthDone jsonParse w.ui o,
                            inFlight := w.inFlight.eraseIdx i })
    | none => none
  | .findOutlet =>
    if offersResults w.ui then some (commit { w with ui := { w.ui with currentStep := 4 } }) else none
  | .getLocation supported =>
    if offersGetLocation w.ui then some (commit (getGeolocation w supported)) else none
  | .geoDone r =>
    if 0 < w.pendingGeo then
      match r with
      | .success coords => some (commit (getGeolocationSuccess w coords))
      | .failure error => some (commit (getGeolocationError w error))
    else none
  | .startOver =>
    if offersReset w.ui then some (commit (resetApp w)) else none

/-- A sequence of events from a given state; `none` as soon as one of them is
not possible. -/
def run (jsonParse : String → Except String JVal) (w : World) : List Event → Option World
  | [] => some w
  | e :: es =>
    match step jsonParse w e with
    | some w1 => run jsonParse w1 es
    | none => none

/-- States the page can be in: those some sequence of events leads to from
the freshly loaded page. -/
def Reachable (jsonParse : String → Except String JVal) (w : World) : Prop :=
  ∃ es, run jsonParse initialWorld es = some w

/-! ## Score colour and prompt bands -/

/-- Class of the score span (line 349) for a numeric `healthScore`:
`healthScore >= 7 ? 'text-green-600' : healthScore >= 4 ? 'text-orange-600' :
'text-red-600'`. -/
def scoreColour (healthScore : Int) : String :=
  if healthScore ≥ 7 then "text-green-600"
  else if healthScore ≥ 4 then "text-orange-600"
  else "text-red-600"

/-- Class of the score span for the value held in `healthScore`, when that
value is a number; the comparison of other values goes through the builtin
number conversion and is left out. -/
def healthScoreClass : JVal → Option String
  | .num n => some (scoreColour n)
  | _ => none

/-- Recommendation the prompt prescribes for a score (lines 99-101): one text
for 7-10, one for 4-6, one for 1-3, nothing for other scores. -/
def promptRecommendation (score : Int) : Option String :=
  if 7 ≤ score ∧ score ≤ 10 then
    some "Your tyre health is good! Keep up with regular maintenance."
  else if 4 ≤ score ∧ score ≤ 6 then
    some "Your tyre health condition is moderate. We suggest checking tyre pressure and rotation soon."
  else if 1 ≤ score ∧ score ≤ 3 then
    some "Your tyre health condition is not good. We suggest you to visit a nearby CEAT outlet and get proper guidance and inspection immediately."
  else none

/-! ## Outcome of a completed inference call -/

/-- Outcomes with which `detectTyreHealth` runs through to
`setCurrentStep(3)` (line 161): the status is ok, the test of lines 153-155
passes, and the text parses to a value whose properties can be read. -/
def detectSuccess (jsonParse : String → Except String JVal) : FetchOutcome → Bool
  | .ok result =>
    match responseText result with
    | some jsonText =>
      match jsonParse (jsonArg jsonText) with
      | .ok .null => false
      | .ok .undefined => false
      | .ok _ => true
      | .error _ => false
    | none => false
  | _ => false

/-! ## Sample data for closed evaluations -/

/-- Answer text with a score of 8. -/
def goodText : String :=
  "\x7b\"score\": 8, \"recommendation\": \"Your tyre health is good!\", \"analysisDetails\": \"Deep grooves.\"\x7d"

/-- Answer text whose score field is `null`. -/
def nullScoreText : String :=
  "\x7b\"score\": null, \"recommendation\": \"Upload a tyre image.\", \"analysisDetails\": \"Not a tyre.\"\x7d"

/-- Answer text with a score of 11. -/
def highScoreText : String :=
  "\x7b\"score\": 11, \"recommendation\": \"Your tyre health is good!\", \"analysisDetails\": \"Looks new.\"\x7d"

/-- Answer text that is an object without fields. -/
def emptyObjectText : String := "\x7b\x7d"

/-- Values of `JSON.parse` on the sample texts above and on the text `null`;
used where a theorem evaluates the page on a concrete answer.  Other texts
are not needed there and are answered with a syntax error. -/
def sampleParse (text : String) : Except String JVal :=
  if text = goodText then
    .ok (.obj [("score", .num 8), ("recommendation", .str "Your tyre health is good!"),
               ("analysisDetails", .str "Deep grooves.")])
  else if text = nullScoreText then
    .ok (.obj [("score", .null), ("recommendation", .str "Upload a tyre image."),
               ("analysisDetails", .str "Not a tyre.")])
  else if text = highScoreText then
    .ok (.obj [("score", .num 11), ("recommendation", .str "Your tyre health is good!"),
               ("analysisDetails", .str "Looks new.")])
  else if text = emptyObjectText then .ok (.obj [])
  else if text = "null" then .ok .null
  else .error "Unexpected token"

/-- An endpoint answer with one candidate holding one text part. -/
def answerWith (text : String) : FetchOutcome :=
  .ok { candidates := some [{ content := some { parts := some [{ text := some text }] } }] }

/-- A PNG file of a few bytes. -/
def sampleFile : File := { dataURL := "data:image/png;base64,iVBORw0KGgo=" }

/-- The scan step with the sample file loaded and nothing pending. -/
def scanWorld : World :=
  { initialWorld with
    ui := { initialUI with tyreImage := some sampleFile.dataURL, currentStep := 2 }
    video := some none }

/-- The scan step while the analysis of the sample file is pending. -/
def analysingWorld : World :=
  { scanWorld with
    ui := { scanWorld.ui with loading := true }
    inFlight := [{ mimeType := "image/png", data := some "iVBORw0KGgo=" }] }

/-- The results step after the answer `goodText`. -/
def resultsWorld : World :=
  { initialWorld with
    ui := { tyreImage := some sampleFile.dataURL, healthScore := .num 8,
            recommendation := .str "Your tyre health is good!",
            analysisDetails := .str "Deep grooves.", userLocation := none, loading := false,
            errorMessage := "", currentStep := 3 } }

/-- Body of an endpoint answer whose only text part is `goodText`. -/
def goodResult : ApiResult :=
  { candidates := some [{ content := some { parts := some [{ text := some goodText }] } }] }

/-! ## Basic facts about the handlers -/

@[simp] theorem closeCamera_ui (w : World) : (closeCamera w).ui = w.ui := by
  unfold closeCamera
  split <;> rfl

@[simp] theorem commit_ui (w : World) : (commit w).ui = w.ui := by
  unfold commit
  split
  · split <;> rfl
  · rfl

@[simp] theorem commit_inFlight (w : World) : (commit w).inFlight = w.inFlight := by
  unfold commit
  split
  · split <;> rfl
  · rfl

@[simp] theorem commit_liveStreams (w : World) : (commit w).liveStreams = w.liveStreams := by
  unfold commit
  split
  · split <;> rfl
  · rfl

@[simp] theorem closeCamera_inFlight (w : World) : (closeCamera w).inFlight = w.inFlight := by
  unfold closeCamera
  split <;> rfl

theorem closeCamera_idem (w : World) : closeCamera (closeCamera w) = closeCamera w := by
  obtain ⟨ui, video, live, next, fl, reads, cam, geo⟩ := w
  rcases video with _ | _ | stream <;> simp [closeCamera]

theorem eraseIdx_concat_length {α : Type} (xs : List α) (x : α) :
    (xs ++ [x]).eraseIdx xs.length = xs := by
  induction xs with
  | nil => rfl
  | cons y ys ih => simp [List.eraseIdx, ih]

theorem step_detectDone (jsonParse : String → Except String JVal) (w : World) (i : Nat)
    (o : FetchOutcome) (req : InferenceRequest) (h : w.inFlight.get? i = some req) :
    step jsonParse w (.detectDone i o) =
      some (commit { w with ui := detectTyreHealthDone jsonParse w.ui o,
                            inFlight := w.inFlight.eraseIdx i }) := by
  simp only [step, h]

/-! ## Reset -/

/-- C1: whatever the state, after `resetApp` the eight fields hold their
initial values (image and score null, texts empty, no location, not loading,
no error, step 1), so the state equals the initial one, and running
`resetApp` a second time changes nothing. -/
theorem resetApp_restores_initial (w : World) :
    (resetApp w).ui.tyreImage = none ∧
    (resetApp w).ui.healthScore = JVal.null ∧
    (resetApp w).ui.recommendation = JVal.str "" ∧
    (resetApp w).ui.analysisDetails = JVal.str "" ∧
    (resetApp w).ui.userLocation = none ∧
    (resetApp w).ui.loading = false ∧
    (resetApp w).ui.errorMessage = "" ∧
    (resetApp w).ui.currentStep = 1 ∧
    (resetApp w).ui = initialUI ∧
    resetApp (resetApp w) = resetApp w := by
  have hui : (resetApp w).ui = initialUI := by simp [resetApp, initialUI]
  refine ⟨?_, ?_, ?_, ?_, ?_, ?_, ?_, ?_, hui, ?_⟩
  · rw [hui]; rfl
  · rw [hui]; rfl
  · rw [hui]; rfl
  · rw [hui]; rfl
  · rw [hui]; rfl
  · rw [hui]; rfl
  · rw [hui]; rfl
  · rw [hui]; rfl
  · obtain ⟨ui, video, live, next, fl, reads, cam, geo⟩ := w
    rcases video with _ | _ | stream <;> simp [resetApp, closeCamera]

/-! ## Image upload -/

/-- C2: when the read of a selected file `f` completes, the image is the data
URL of `f`, score, recommendation, details and error are cleared, and step,
location and loading flag are as they were; selecting a file only starts the
read, and a change event without a file leaves the whole state as it was. -/
theorem handleImageChange_effect (jsonParse : String → Except String JVal) (w : World)
    (i : Nat) (f : File) (h : w.pendingReads.get? i = some f) :
    (∃ w1, step jsonParse w (.readDone i true) = some w1 ∧
      w1.ui.tyreImage = some f.dataURL ∧
      w1.ui.healthScore = JVal.null ∧
      w1.ui.recommendation = JVal.str "" ∧
      w1.ui.analysisDetails = JVal.str "" ∧
      w1.ui.errorMessage = "" ∧
      w1.ui.currentStep = w.ui.currentStep ∧
      w1.ui.userLocation = w.ui.userLocation ∧
      w1.ui.loading = w.ui.loading) ∧
    (handleImageChange w (some f)).ui = w.ui ∧
    (handleImageChange w (some f)).pendingReads.get? w.pendingReads.length = some f ∧
    handleImageChange w none = w := by
  refine ⟨?_, rfl, ?_, rfl⟩
  · refine ⟨_, by simp only [step, h]; rfl, ?_⟩
    simp [onloadend]
  · simp [handleImageChange]

/-- C2 applied to a state in which one read is pending. -/
theorem handleImageChange_effect_witness :
    (∃ w1, step sampleParse (handleImageChange initialWorld (some sampleFile)) (.readDone 0 true)
        = some w1 ∧
      w1.ui.tyreImage = some sampleFile.dataURL ∧
      w1.ui.healthScore = JVal.null ∧
      w1.ui.recommendation = JVal.str "" ∧
      w1.ui.analysisDetails = JVal.str "" ∧
      w1.ui.errorMessage = "" ∧
      w1.ui.currentStep = (handleImageChange initialWorld (some sampleFile)).ui.currentStep ∧
      w1.ui.userLocation = (handleImageChange initialWorld (some sampleFile)).ui.userLocation ∧
      w1.ui.loading = (handleImageChange initialWorld (some sampleFile)).ui.loading) ∧
    (handleImageChange (handleImageChange initialWorld (some sampleFile)) (some sampleFile)).ui
      = (handleImageChange initialWorld (some sampleFile)).ui ∧
    (handleImageChange (handleImageChange initialWorld (some sampleFile))
        (some sampleFile)).pendingReads.get?
      (handleImageChange initialWorld (some sampleFile)).pendingReads.length = some sampleFile ∧
    handleImageChange (handleImageChange initialWorld (some sampleFile)) none
      = handleImageChange initialWorld (some sampleFile) :=
  handleImageChange_effect sampleParse (handleImageChange initialWorld (some sampleFile)) 0
    sampleFile (by rfl)

/-! ## Requests in flight -/

/-- Events that start a first analysis and then press Start Over while the
request is pending, and reach the scan step again with a new image. -/
def resetWhilePending : List Event :=
  [.start, .selectFile (some sampleFile), .readDone 0 true, .analyze, .startOver,
   .start, .selectFile (some sampleFile), .readDone 0 true]

/-- C3: after the events `resetWhilePending` the first request is still in
flight, the loading flag is false and the Analyze button is enabled; pressing
it starts a second request, so two are in flight. -/
theorem analyze_enabled_while_request_pending :
    (run sampleParse initialWorld resetWhilePending).map
        (fun w => (w.inFlight.length, w.ui.loading, offersAnalyze w.ui)) = some (1, false, true) ∧
    (run sampleParse initialWorld (resetWhilePending ++ [.analyze])).map
        (fun w => w.inFlight.length) = some 2 := by
  decide

/-! ## Camera stream -/

/-- With the video element mounted and holding a stream, the release block
stops that stream and clears `srcObject`; this is the case in which
`capturePhoto`, `onloadend` and `resetApp` release the camera. -/
theorem closeCamera_released (w : World) (stream : Nat) (h : w.video = some (some stream)) :
    (closeCamera w).video = some none ∧ stream ∉ (closeCamera w).liveStreams := by
  simp [closeCamera, h]

/-- Events that open the camera after an upload, obtain a score, and press
Start Over on the results step. -/
def resetFromResults : List Event :=
  [.start, .selectFile (some sampleFile), .readDone 0 true, .openCamera, .cameraDone true,
   .analyze, .detectDone 0 (answerWith goodText), .startOver]

/-- C4: after the events `resetFromResults`, which end with `resetApp` run
from the results step, the stream acquired by `startCamera` (stream 0) still
has live tracks; before the reset the page was on step 3 with no video
element mounted. -/
theorem resetApp_from_results_leaves_stream :
    (run sampleParse initialWorld resetFromResults.dropLast).map
        (fun w => (w.ui.currentStep, w.video, w.liveStreams)) = some (3, none, [0]) ∧
    (run sampleParse initialWorld resetFromResults).map
        (fun w => (w.ui.currentStep, w.video, w.liveStreams)) = some (1, none, [0]) := by
  decide

/-! ## Reset control -/

/-- Events that end with an answer whose score field is `null`. -/
def nullScoreAnswer : List Event :=
  [.start, .selectFile (some sampleFile), .readDone 0 true, .analyze,
   .detectDone 0 (answerWith nullScoreText)]

/-- C5: after the events `nullScoreAnswer` the page is on step 3 with a null
score, and neither the results block nor any Start Over button is rendered. -/
theorem no_reset_after_null_score :
    (run sampleParse initialWorld nullScoreAnswer).map
        (fun w => (w.ui.currentStep, w.ui.healthScore.notNull, offersResults w.ui,
                   offersReset w.ui)) = some (3, false, false, false) := by
  decide

/-! ## Failing inference calls -/

theorem append_ne_empty (a b : String) (h : a ≠ "") : a ++ b ≠ "" := by
  intro hab
  apply h
  have hd : (a ++ b).data = [] := by rw [hab]
  rw [String.data_append] at hd
  have ha : a.data = [] := (List.append_eq_nil.mp hd).1
  exact String.ext ha

/-- Failing outcomes of the inference call that `detectTyreHealth` reports:
the request rejects, the status is not ok, the body is not JSON, the test of
lines 153-155 fails, the text is not valid JSON, or the text parses to
`null`. -/
def detectFailure (jsonParse : String → Except String JVal) : FetchOutcome → Bool
  | .rejected _ => true
  | .notOk _ => true
  | .badBody _ => true
  | .ok result =>
    match responseText result with
    | none => true
    | some jsonText =>
      match jsonParse (jsonArg jsonText) with
      | .error _ => true
      | .ok .null => true
      | .ok _ => false

theorem detectTry_of_failure (jsonParse : String → Except String JVal) (ui : UIState)
    (o : FetchOutcome) (h : detectFailure jsonParse o = true) :
    (∃ message, detectTry jsonParse ui o = (ui, some message)) ∨
    detectTry jsonParse ui o =
      ({ ui with errorMessage := "AI detection failed: Unexpected response structure." }, none) := by
  cases o with
  | rejected message => exact Or.inl ⟨message, rfl⟩
  | notOk statusText => exact Or.inl ⟨_, rfl⟩
  | badBody message => exact Or.inl ⟨message, rfl⟩
  | ok result =>
    simp only [detectFailure] at h
    simp only [detectTry]
    cases hr : responseText result with
    | none => exact Or.inr rfl
    | some jsonText =>
      rw [hr] at h
      simp only at h ⊢
      cases hp : jsonParse (jsonArg jsonText) with
      | error message => exact Or.inl ⟨message, rfl⟩
      | ok parsedJson =>
        rw [hp] at h
        cases parsedJson <;> simp at h
        exact Or.inl ⟨_, rfl⟩

/-- C6 as the claim states it fails on an answer whose text is an object
without fields: the parsed value has none of the three fields, yet from step 2
with the loading flag set the call ends with an empty error message on step
3, and the null score is replaced by `undefined`. -/
theorem detect_accepts_object_without_fields :
    (sampleParse emptyObjectText).toOption.map
        (fun v => (v.hasField "score", v.hasField "recommendation", v.hasField "analysisDetails"))
      = some (false, false, false) ∧
    (let ui0 : UIState := { initialUI with tyreImage := some sampleFile.dataURL, loading := true,
                                           currentStep := 2 }
     let ui1 := detectTyreHealthDone sampleParse ui0 (answerWith emptyObjectText)
     (ui1.errorMessage, ui1.loading, ui0.currentStep, ui1.currentStep,
      ui0.healthScore.notNull, ui1.healthScore.notNull) = ("", false, 2, 3, false, true)) := by
  decide

/-- C6, amended: whatever the state, when the request rejects, the status is
not ok, the body is not JSON, the answer lacks candidates, content or parts,
the text is not valid JSON or parses to `null`, the call ends with a
non-empty error message and the loading flag false, and leaves step, score,
recommendation, details, image and location as they were. -/
theorem detect_failure_reported (jsonParse : String → Except String JVal) (ui : UIState)
    (o : FetchOutcome) (h : detectFailure jsonParse o = true) :
    (detectTyreHealthDone jsonParse ui o).errorMessage ≠ "" ∧
    (detectTyreHealthDone jsonParse ui o).loading = false ∧
    (detectTyreHealthDone jsonParse ui o).currentStep = ui.currentStep ∧
    (detectTyreHealthDone jsonParse ui o).healthScore = ui.healthScore ∧
    (detectTyreHealthDone jsonParse ui o).recommendation = ui.recommendation ∧
    (detectTyreHealthDone jsonParse ui o).analysisDetails = ui.analysisDetails ∧
    (detectTyreHealthDone jsonParse ui o).tyreImage = ui.tyreImage ∧
    (detectTyreHealthDone jsonParse ui o).userLocation = ui.userLocation := by
  rcases detectTry_of_failure jsonParse ui o h with ⟨message, hm⟩ | hm
  · have e : detectTyreHealthDone jsonParse ui o =
        { ui with errorMessage := "Error processing image: " ++ message ++ ". Please try again.",
                  loading := false } := by
      unfold detectTyreHealthDone; rw [hm]
    rw [e]
    refine ⟨?_, rfl, rfl, rfl, rfl, rfl, rfl, rfl⟩
    show "Error processing image: " ++ message ++ ". Please try again." ≠ ""
    rw [String.append_assoc]
    exact append_ne_empty _ _ (by decide)
  · have e : detectTyreHealthDone jsonParse ui o =
        { ui with errorMessage := "AI detection failed: Unexpected response structure.",
                  loading := false } := by
      unfold detectTyreHealthDone; rw [hm]
    rw [e]
    refine ⟨?_, rfl, rfl, rfl, rfl, rfl, rfl, rfl⟩
    show "AI detection failed: Unexpected response structure." ≠ ""
    decide

/-- C6, amended, applied to a rejected status on the scan step. -/
theorem detect_failure_reported_witness :
    (detectTyreHealthDone sampleParse { initialUI with loading := true, currentStep := 2 }
      (.notOk "Too Many Requests")).errorMessage ≠ "" ∧
    (detectTyreHealthDone sampleParse { initialUI with loading := true, currentStep := 2 }
      (.notOk "Too Many Requests")).loading = false ∧
    (detectTyreHealthDone sampleParse { initialUI with loading := true, currentStep := 2 }
      (.notOk "Too Many Requests")).currentStep = 2 ∧
    (detectTyreHealthDone sampleParse { initialUI with loading := true, currentStep := 2 }
      (.notOk "Too Many Requests")).healthScore = JVal.null ∧
    (detectTyreHealthDone sampleParse { initialUI with loading := true, currentStep := 2 }
      (.notOk "Too Many Requests")).recommendation = JVal.str "" ∧
    (detectTyreHealthDone sampleParse { initialUI with loading := true, currentStep := 2 }
      (.notOk "Too Many Requests")).analysisDetails = JVal.str "" ∧
    (detectTyreHealthDone sampleParse { initialUI with loading := true, currentStep := 2 }
      (.notOk "Too Many Requests")).tyreImage = none ∧
    (detectTyreHealthDone sampleParse { initialUI with loading := true, currentStep := 2 }
      (.notOk "Too Many Requests")).userLocation = none :=
  detect_failure_reported sampleParse { initialUI with loading := true, currentStep := 2 }
    (.notOk "Too Many Requests") (by decide)

/-! ## Geolocation failures -/

theorem geoErrorMessage_other_ne_placeholder (x : String) :
    "Geolocation error: " ++ x ++ "." ≠ geoPlaceholder := by
  intro h
  have h1 : ("Geolocation error: " ++ x ++ ".").data.head? = some 'G' := by
    rw [String.append_assoc, String.data_append]; rfl
  have h2 : geoPlaceholder.data.head? = some 'A' := by decide
  rw [h, h2] at h1
  exact absurd h1 (by decide)

theorem geoErrorMessage_ne (error : GeoError) :
    geoErrorMessage error ≠ "" ∧ geoErrorMessage error ≠ geoPlaceholder := by
  obtain ⟨code, message⟩ := error
  match code with
  | 1 => constructor <;> (simp only [geoErrorMessage]; decide)
  | 2 => constructor <;> (simp only [geoErrorMessage]; decide)
  | 3 => constructor <;> (simp only [geoErrorMessage]; decide)
  | 0 =>
    refine ⟨?_, geoErrorMessage_other_ne_placeholder _⟩
    show "Geolocation error: " ++ _ ++ "." ≠ ""
    rw [String.append_assoc]
    exact append_ne_empty _ _ (by decide)
  | n + 4 =>
    refine ⟨?_, geoErrorMessage_other_ne_placeholder _⟩
    show "Geolocation error: " ++ _ ++ "." ≠ ""
    rw [String.append_assoc]
    exact append_ne_empty _ _ (by decide)

/-- C7: the error callback of `getGeolocation` ends with the loading flag
false, the location as it was, and a message that is never empty and never
the placeholder: codes 1, 2 and 3 each give their own fixed text, every other
code gives `Geolocation error: ` followed by the error's message (or
`Unknown error` when that is empty) and a full stop; without browser support
the message is the fixed unsupported text, the loading flag is false, the
location is as it was and no request is pending. -/
theorem getGeolocation_failure_message (w : World) (error : GeoError) (message : String)
    (n : Nat) :
    (getGeolocationError w error).ui.loading = false ∧
    (getGeolocationError w error).ui.userLocation = w.ui.userLocation ∧
    (getGeolocationError w error).ui.errorMessage = geoErrorMessage error ∧
    geoErrorMessage error ≠ "" ∧
    geoErrorMessage error ≠ geoPlaceholder ∧
    geoErrorMessage { code := 1, message := message } =
      "You denied location access. Please enable it in browser settings to use this feature." ∧
    geoErrorMessage { code := 2, message := message } =
      "Location information is unavailable. Please check your device's location settings." ∧
    geoErrorMessage { code := 3, message := message } =
      "The request to get your location timed out. Please try again." ∧
    geoErrorMessage { code := 0, message := message } =
      "Geolocation error: " ++ (if message = "" then "Unknown error" else message) ++ "." ∧
    geoErrorMessage { code := n + 4, message := message } =
      "Geolocation error: " ++ (if message = "" then "Unknown error" else message) ++ "." ∧
    (getGeolocation w false).ui.errorMessage = "Geolocation is not supported by your browser." ∧
    (getGeolocation w false).ui.loading = false ∧
    (getGeolocation w false).ui.userLocation = w.ui.userLocation ∧
    (getGeolocation w false).pendingGeo = w.pendingGeo :=
  ⟨rfl, rfl, rfl, (geoErrorMessage_ne error).1, (geoErrorMessage_ne error).2, rfl, rfl, rfl, rfl,
   rfl, rfl, rfl, rfl, rfl⟩

/-! ## Successful inference call -/

/-- C9: when the first part of the first candidate is text that parses to an
object with fields `score`, `recommendation` and `analysisDetails`, the
completion stores these three values as they are, moves to step 3, clears the
loading flag and leaves image, location and error message as they were; run
from a state with an image, the whole call ends with an empty error message. -/
theorem detect_success_stores_answer (jsonParse : String → Except String JVal) (w : World)
    (result : ApiResult) (text : String) (kvs : List (String × JVal))
    (score recommendation analysisDetails : JVal)
    (himg : noImage w.ui.tyreImage = false)
    (htext : responseText result = some (some text))
    (hparse : jsonParse text = .ok (.obj kvs))
    (hs : kvs.lookup "score" = some score)
    (hr : kvs.lookup "recommendation" = some recommendation)
    (hd : kvs.lookup "analysisDetails" = some analysisDetails) :
    detectTyreHealthDone jsonParse w.ui (.ok result) =
      { w.ui with healthScore := score, recommendation := recommendation,
                  analysisDetails := analysisDetails, currentStep := 3, loading := false } ∧
    (detectTyreHealth w).ui = { w.ui with loading := true, errorMessage := "" } ∧
    (detectTyreHealth w).inFlight.length = w.inFlight.length + 1 ∧
    (∃ w1, step jsonParse (detectTyreHealth w) (.detectDone w.inFlight.length (.ok result))
        = some w1 ∧
      w1.inFlight = w.inFlight ∧
      w1.ui = { w.ui with healthScore := score, recommendation := recommendation,
                          analysisDetails := analysisDetails, currentStep := 3,
                          loading := false, errorMessage := "" }) := by
  have hdone : ∀ ui : UIState, detectTyreHealthDone jsonParse ui (.ok result) =
      { ui with healthScore := score, recommendation := recommendation,
                analysisDetails := analysisDetails, currentStep := 3, loading := false } := by
    intro ui
    simp [detectTyreHealthDone, detectTry, htext, jsonArg, hparse, JVal.getProp, hs, hr, hd]
  obtain ⟨img, himg1, himg2⟩ : ∃ img, w.ui.tyreImage = some img ∧ (img == "") = false := by
    cases h : w.ui.tyreImage with
    | none => simp [noImage, h] at himg
    | some img => exact ⟨img, rfl, by simpa [noImage, h] using himg⟩
  have hstart : detectTyreHealth w =
      { w with ui := { w.ui with loading := true, errorMessage := "" },
               inFlight := w.inFlight ++ [{ mimeType := "image/png", data := base64ImageData img }] } := by
    simp [detectTyreHealth, himg1, himg2]
  refine ⟨hdone _, by rw [hstart], by rw [hstart]; simp, ?_⟩
  rw [hstart]
  refine ⟨_, step_detectDone jsonParse _ _ _
    { mimeType := "image/png", data := base64ImageData img } (by simp), ?_, ?_⟩
  · simp [eraseIdx_concat_length]
  · simp [hdone]

/-- C9 applied to the scan step with the sample file and an answer scoring 8. -/
theorem detect_success_stores_answer_witness :
    detectTyreHealthDone sampleParse scanWorld.ui (.ok goodResult) =
      { scanWorld.ui with healthScore := JVal.num 8,
                          recommendation := JVal.str "Your tyre health is good!",
                          analysisDetails := JVal.str "Deep grooves.", currentStep := 3,
                          loading := false } ∧
    (detectTyreHealth scanWorld).ui = { scanWorld.ui with loading := true, errorMessage := "" } ∧
    (detectTyreHealth scanWorld).inFlight.length = scanWorld.inFlight.length + 1 ∧
    (∃ w1, step sampleParse (detectTyreHealth scanWorld)
        (.detectDone scanWorld.inFlight.length (.ok goodResult)) = some w1 ∧
      w1.inFlight = scanWorld.inFlight ∧
      w1.ui = { scanWorld.ui with healthScore := JVal.num 8,
                                  recommendation := JVal.str "Your tyre health is good!",
                                  analysisDetails := JVal.str "Deep grooves.", currentStep := 3,
                                  loading := false, errorMessage := "" }) :=
  detect_success_stores_answer sampleParse scanWorld goodResult goodText
    [("score", .num 8), ("recommendation", .str "Your tyre health is good!"),
     ("analysisDetails", .str "Deep grooves.")]
    (.num 8) (.str "Your tyre health is good!") (.str "Deep grooves.")
    (by decide) (by rfl) (by rfl) (by rfl) (by rfl) (by rfl)

/-! ## Analysis without an image -/

/-- C10: when `tyreImage` is null or the empty string, `detectTyreHealth`
starts no request, sets the error message to the fixed text asking for an
image, and leaves every other field as it was. -/
theorem detect_without_image (w : World) (h : noImage w.ui.tyreImage = true) :
    (detectTyreHealth w).inFlight = w.inFlight ∧
    (detectTyreHealth w).ui.errorMessage = "Please upload or capture an image of the tyre first." ∧
    (detectTyreHealth w).ui.loading = w.ui.loading ∧
    (detectTyreHealth w).ui.currentStep = w.ui.currentStep ∧
    (detectTyreHealth w).ui.healthScore = w.ui.healthScore ∧
    (detectTyreHealth w).ui.recommendation = w.ui.recommendation ∧
    (detectTyreHealth w).ui.analysisDetails = w.ui.analysisDetails ∧
    (detectTyreHealth w).ui.userLocation = w.ui.userLocation ∧
    (detectTyreHealth w).ui.tyreImage = w.ui.tyreImage ∧
    detectTyreHealth w =
      { w with ui := { w.ui with
          errorMessage := "Please upload or capture an image of the tyre first." } } := by
  have e : detectTyreHealth w =
      { w with ui := { w.ui with
          errorMessage := "Please upload or capture an image of the tyre first." } } := by
    unfold detectTyreHealth
    cases hi : w.ui.tyreImage with
    | none => rfl
    | some img =>
      have himg : (img == "") = true := by simpa [noImage, hi] using h
      simp [himg]
  rw [e]
  exact ⟨rfl, rfl, rfl, rfl, rfl, rfl, rfl, rfl, rfl, rfl⟩

/-- C10 applied to the scan step with an empty string as image. -/
theorem detect_without_image_witness :
    (detectTyreHealth { scanWorld with ui := { scanWorld.ui with tyreImage := some "" } }).inFlight
      = [] ∧
    (detectTyreHealth { scanWorld with ui := { scanWorld.ui with tyreImage := some "" } }).ui.errorMessage
      = "Please upload or capture an image of the tyre first." ∧
    (detectTyreHealth { scanWorld with ui := { scanWorld.ui with tyreImage := some "" } }).ui.loading
      = false ∧
    (detectTyreHealth { scanWorld with ui := { scanWorld.ui with tyreImage := some "" } }).ui.currentStep
      = 2 := by
  have h := detect_without_image { scanWorld with ui := { scanWorld.ui with tyreImage := some "" } }
    (by decide)
  exact ⟨h.1, h.2.1, h.2.2.1, h.2.2.2.1⟩

/-! ## Range of the stored score -/

/-- An integer between 1 and 10. -/
def scoreInRange : JVal → Bool
  | .num n => decide (1 ≤ n) && decide (n ≤ 10)
  | _ => false

/-- The integer a value is, if it is one. -/
def JVal.toInt? : JVal → Option Int
  | .num n => some n
  | _ => none

/-- The value that line 158 passes to `setHealthScore` for a given outcome of
the call; `none` when that line is not reached. -/
def storedScore (jsonParse : String → Except String JVal) : FetchOutcome → Option JVal
  | .ok result =>
    match responseText result with
    | some jsonText =>
      match jsonParse (jsonArg jsonText) with
      | .ok parsedJson =>
        match parsedJson.getProp "score" with
        | .ok score => some score
        | .error _ => none
      | .error _ => none
    | none => none
  | _ => none

theorem detectTry_healthScore (jsonParse : String → Except String JVal) (ui : UIState)
    (o : FetchOutcome) :
    (detectTry jsonParse ui o).1.healthScore = (storedScore jsonParse o).getD ui.healthScore := by
  cases o with
  | rejected message => rfl
  | notOk statusText => rfl
  | badBody message => rfl
  | ok result =>
    simp only [detectTry, storedScore]
    cases responseText result with
    | none => rfl
    | some jsonText =>
      simp only
      cases jsonParse (jsonArg jsonText) with
      | error message => rfl
      | ok parsedJson =>
        simp only
        cases parsedJson.getProp "score" with
        | error message => rfl
        | ok score =>
          simp only
          cases parsedJson.getProp "recommendation" with
          | error message => rfl
          | ok recommendation =>
            simp only
            cases parsedJson.getProp "analysisDetails" with
            | error message => rfl
            | ok analysisDetails => rfl

theorem detectTyreHealthDone_healthScore (jsonParse : String → Except String JVal)
    (ui : UIState) (o : FetchOutcome) :
    (detectTyreHealthDone jsonParse ui o).healthScore
      = (storedScore jsonParse o).getD ui.healthScore := by
  rw [← detectTry_healthScore]
  unfold detectTyreHealthDone
  rcases detectTry jsonParse ui o with ⟨ui1, _ | message⟩ <;> rfl

/-- Effect of one event on the score: it is kept, reset to null, or replaced
by the score of a completed inference call. -/
theorem step_healthScore (jsonParse : String → Except String JVal) (w w1 : World) (e : Event)
    (h : step jsonParse w e = some w1) :
    w1.ui.healthScore = w.ui.healthScore ∨ w1.ui.healthScore = JVal.null ∨
    ∃ i o, e = .detectDone i o ∧
      w1.ui.healthScore = (storedScore jsonParse o).getD w.ui.healthScore := by
  cases e with
  | start =>
    simp only [step] at h
    split at h
    · cases h; exact Or.inl (by simp)
    · cases h
  | selectFile file =>
    simp only [step] at h
    split at h
    · cases h; cases file <;> exact Or.inl (by simp [handleImageChange])
    · cases h
  | readDone i success =>
    simp only [step] at h
    split at h
    · cases h; exact Or.inr (Or.inl (by simp [onloadend]))
    · cases h
  | openCamera =>
    simp only [step] at h
    split at h
    · cases h; exact Or.inl (by simp [startCamera])
    · cases h
  | cameraDone granted =>
    simp only [step] at h
    split at h
    · cases h
      cases granted
      · exact Or.inl (by simp [startCameraDone])
      · refine Or.inl ?_
        cases hv : w.video <;> simp [startCameraDone, hv]
    · cases h
  | capture frame =>
    simp only [step] at h
    split at h
    · cases h
      simp only [commit_ui, capturePhoto]
      split
      · exact Or.inr (Or.inl (by simp))
      · exact Or.inl rfl
    · cases h
  | analyze =>
    simp only [step] at h
    split at h
    · cases h
      refine Or.inl ?_
      simp only [commit_ui, detectTyreHealth]
      split
      · rfl
      · split <;> rfl
    · cases h
  | detectDone i o =>
    simp only [step] at h
    split at h
    · cases h
      exact Or.inr (Or.inr ⟨i, o, rfl, by simp [detectTyreHealthDone_healthScore]⟩)
    · cases h
  | findOutlet =>
    simp only [step] at h
    split at h
    · cases h; exact Or.inl (by simp)
    · cases h
  | getLocation supported =>
    simp only [step] at h
    split at h
    · cases h
      cases supported <;> exact Or.inl (by simp [getGeolocation])
    · cases h
  | geoDone r =>
    simp only [step] at h
    split at h
    · cases r with
      | success coords => cases h; exact Or.inl (by simp [getGeolocationSuccess])
      | failure error => cases h; exact Or.inl (by simp [getGeolocationError])
    · cases h
  | startOver =>
    simp only [step] at h
    split at h
    · cases h; exact Or.inr (Or.inl (by simp [resetApp]))
    · cases h

theorem run_healthScore (jsonParse : String → Except String JVal) (es : List Event) :
    ∀ w w1 : World, run jsonParse w es = some w1 →
    (∀ i o v, Event.detectDone i o ∈ es → storedScore jsonParse o = some v →
      scoreInRange v = true) →
    (w.ui.healthScore.notNull = true → scoreInRange w.ui.healthScore = true) →
    w1.ui.healthScore.notNull = true → scoreInRange w1.ui.healthScore = true := by
  induction es with
  | nil =>
    intro w w1 hrun _ hw
    simp only [run] at hrun
    cases hrun
    exact hw
  | cons e es ih =>
    intro w w1 hrun hans hw
    simp only [run] at hrun
    cases hstep : step jsonParse w e with
    | none => rw [hstep] at hrun; cases hrun
    | some w2 =>
      rw [hstep] at hrun
      refine ih w2 w1 hrun (fun i o v hmem => hans i o v (List.mem_cons_of_mem _ hmem)) ?_
      rcases step_healthScore jsonParse w w2 e hstep with hk | hn | ⟨i, o, he, hs⟩
      · rw [hk]; exact hw
      · rw [hn]; intro hc; cases hc
      · rw [hs]
        cases hv : storedScore jsonParse o with
        | none => exact hw
        | some v =>
          intro _
          exact hans i o v (by rw [he]; exact List.mem_cons_self _ _) hv

/-- Events that end with an answer whose score is 11. -/
def highScoreAnswer : List Event :=
  [.start, .selectFile (some sampleFile), .readDone 0 true, .analyze,
   .detectDone 0 (answerWith highScoreText)]

/-- C8 as the claim states it fails: after the events `highScoreAnswer` the
results block is rendered on step 3 and the score held is the integer 11,
which is not between 1 and 10. -/
theorem healthScore_eleven_shown :
    (run sampleParse initialWorld highScoreAnswer).map
        (fun w => (w.ui.currentStep, offersResults w.ui, w.ui.healthScore.toInt?,
                   scoreInRange w.ui.healthScore)) = some (3, true, some 11, false) := by
  decide

/-- C8, amended: the page stores the score as the endpoint sent it; in every
state reached by events in which each answer that gets as far as
`setHealthScore` carries an integer score between 1 and 10, a score that is
not null is an integer between 1 and 10. -/
theorem healthScore_range_of_answers (jsonParse : String → Except String JVal)
    (es : List Event) (w : World)
    (hrun : run jsonParse initialWorld es = some w)
    (hans : ∀ i o v, Event.detectDone i o ∈ es → storedScore jsonParse o = some v →
      scoreInRange v = true)
    (hnn : w.ui.healthScore.notNull = true) :
    scoreInRange w.ui.healthScore = true :=
  run_healthScore jsonParse es initialWorld w hrun hans (fun hc => by cases hc) hnn

/-- Events that end with an answer whose score is 8. -/
def goodAnswer : List Event :=
  [.start, .selectFile (some sampleFile), .readDone 0 true, .analyze,
   .detectDone 0 (answerWith goodText)]

/-- C8, amended, applied to the events `goodAnswer`: the score held on the
results step is in range. -/
theorem healthScore_range_of_answers_witness :
    (run sampleParse initialWorld goodAnswer).map (fun w => scoreInRange w.ui.healthScore)
      = some true := by
  cases hrun : run sampleParse initialWorld goodAnswer with
  | none =>
    have h : (run sampleParse initialWorld goodAnswer).isSome = true := by decide
    rw [hrun] at h
    cases h
  | some w =>
    have hnn : w.ui.healthScore.notNull = true := by
      have h : (run sampleParse initialWorld goodAnswer).map (fun w => w.ui.healthScore.notNull)
          = some true := by decide
      rw [hrun] at h
      simpa using h
    have hans : ∀ i o v, Event.detectDone i o ∈ goodAnswer → storedScore sampleParse o = some v →
        scoreInRange v = true := by
      intro i o v hmem hv
      simp only [goodAnswer, List.mem_cons, List.mem_singleton, Event.detectDone.injEq,
        reduceCtorEq, false_or, List.not_mem_nil, or_false] at hmem
      obtain ⟨_, rfl⟩ := hmem
      have hs : storedScore sampleParse (answerWith goodText) = some (JVal.num 8) := by rfl
      rw [hs] at hv
      cases hv
      rfl
    simp only [Option.map_some', Option.some.injEq]
    exact healthScore_range_of_answers sampleParse goodAnswer w hrun hans hnn

/-! ## Colour of the displayed score -/

/-- C12: for an integer score from 1 to 10 the class of the score span is
green exactly for 7-10, orange exactly for 4-6 and red exactly for 1-3, each
colour going with the recommendation the prompt prescribes for that band
(good, moderate, not good); every such score falls in exactly one of the
three bands. -/
theorem scoreColour_matches_prompt (n : Int) (h1 : 1 ≤ n) (h10 : n ≤ 10) :
    healthScoreClass (JVal.num n) = some (scoreColour n) ∧
    (scoreColour n = "text-green-600" ↔ 7 ≤ n ∧ n ≤ 10) ∧
    (scoreColour n = "text-orange-600" ↔ 4 ≤ n ∧ n ≤ 6) ∧
    (scoreColour n = "text-red-600" ↔ 1 ≤ n ∧ n ≤ 3) ∧
    (scoreColour n = "text-green-600" ↔ promptRecommendation n =
      some "Your tyre health is good! Keep up with regular maintenance.") ∧
    (scoreColour n = "text-orange-600" ↔ promptRecommendation n =
      some "Your tyre health condition is moderate. We suggest checking tyre pressure and rotation soon.") ∧
    (scoreColour n = "text-red-600" ↔ promptRecommendation n =
      some "Your tyre health condition is not good. We suggest you to visit a nearby CEAT outlet and get proper guidance and inspection immediately.") ∧
    ((7 ≤ n ∧ n ≤ 10) ∨ (4 ≤ n ∧ n ≤ 6) ∨ (1 ≤ n ∧ n ≤ 3)) ∧
    ¬ ((7 ≤ n ∧ n ≤ 10) ∧ (4 ≤ n ∧ n ≤ 6)) ∧
    ¬ ((7 ≤ n ∧ n ≤ 10) ∧ (1 ≤ n ∧ n ≤ 3)) ∧
    ¬ ((4 ≤ n ∧ n ≤ 6) ∧ (1 ≤ n ∧ n ≤ 3)) := by
  refine ⟨rfl, ?_⟩
  interval_cases n <;> decide

/-- C12 applied to the score 5: orange, the moderate band. -/
theorem scoreColour_matches_prompt_witness :
    scoreColour 5 = "text-orange-600" ∧
    promptRecommendation 5 =
      some "Your tyre health condition is moderate. We suggest checking tyre pressure and rotation soon." := by
  have h := scoreColour_matches_prompt 5 (by decide) (by decide)
  have h5 : scoreColour 5 = "text-orange-600" := h.2.2.1.mpr ⟨by decide, by decide⟩
  exact ⟨h5, h.2.2.2.2.2.1.mp h5⟩

/-! ## Image data placed in the request -/

theorem splitChars_of_not_mem (sep : Char) (l : List Char) (h : sep ∉ l) :
    splitChars sep l = [l] := by
  induction l with
  | nil => rfl
  | cons c cs ih =>
    have hc : c ≠ sep := fun e => h (by simp [e])
    have hcs : sep ∉ cs := fun e => h (List.mem_cons_of_mem _ e)
    simp [splitChars, hc, ih hcs]

theorem splitChars_append_sep (sep : Char) (a b : List Char) (h : sep ∉ a) :
    splitChars sep (a ++ sep :: b) = a :: splitChars sep b := by
  induction a with
  | nil => simp [splitChars]
  | cons c cs ih =>
    have hc : c ≠ sep := fun e => h (by simp [e])
    have hcs : sep ∉ cs := fun e => h (List.mem_cons_of_mem _ e)
    simp [splitChars, hc, ih hcs]

theorem dataURL_toList (mediaType payload : String) :
    (dataURL mediaType payload).toList =
      ("data:".toList ++ mediaType.toList ++ ";base64".toList) ++ ',' :: payload.toList := by
  simp [dataURL, String.toList, String.data_append]

theorem base64ImageData_dataURL (mediaType payload : String) (hm : ',' ∉ mediaType.toList)
    (hp : ',' ∉ payload.toList) :
    base64ImageData (dataURL mediaType payload) = some payload := by
  have ha : ',' ∉ "data:".toList ++ mediaType.toList ++ ";base64".toList := by
    simp only [List.mem_append, not_or]
    exact ⟨⟨by decide, hm⟩, by decide⟩
  unfold base64ImageData
  rw [dataURL_toList, splitChars_append_sep _ _ _ ha, splitChars_of_not_mem _ _ hp]
  rfl

theorem dataURL_ne_empty (mediaType payload : String) :
    (dataURL mediaType payload == "") = false := by
  have h : dataURL mediaType payload ≠ "" := by
    unfold dataURL
    rw [String.append_assoc, String.append_assoc]
    exact append_ne_empty _ _ (by decide)
  simpa using h

theorem detectTyreHealth_of_image (w : World) (img : String) (h : w.ui.tyreImage = some img)
    (hne : (img == "") = false) :
    detectTyreHealth w =
      { w with ui := { w.ui with loading := true, errorMessage := "" },
               inFlight := w.inFlight ++ [{ mimeType := "image/png", data := base64ImageData img }] } := by
  simp [detectTyreHealth, h, hne]

theorem capturePhoto_tyreImage (w : World) (frame : Frame) (hv : w.video.isSome = true) :
    (capturePhoto w frame).ui.tyreImage
      = some (toDataURL "image/png" frame.videoWidth frame.videoHeight frame.encoded) ∧
    (capturePhoto w frame).inFlight = w.inFlight := by
  cases hvid : w.video with
  | none => simp [hvid] at hv
  | some v => simp [capturePhoto, hvid]

theorem toDataURL_of_pixels (type : String) (width height : Nat) (encoded : String)
    (hw : 0 < width) (hh : 0 < height) :
    toDataURL type width height encoded = dataURL type encoded := by
  have h : ¬ (width = 0 ∨ height = 0) := by omega
  simp [toDataURL, h]

theorem mediaTypeOf_png (payload : String) :
    mediaTypeOf (dataURL "image/png" payload) = some "image/png" := by
  have h : (dataURL "image/png" payload).toList =
      'd' :: 'a' :: 't' :: 'a' :: ':' :: ("image/png".toList ++ ';' :: ("base64,".toList
        ++ payload.toList)) := by
    simp [dataURL, String.toList, String.data_append]
  unfold mediaTypeOf
  rw [h]
  simp only
  have ht : List.takeWhile (fun c => c != ';' && c != ',')
      ("image/png".toList ++ ';' :: ("base64,".toList ++ payload.toList)) = "image/png".toList := by
    simp [String.toList, List.takeWhile]
  rw [ht]
  rfl

/-- A frame without pixels, as the video element offers it while it has no
video data. -/
def emptyFrame : Frame := { videoWidth := 0, videoHeight := 0, encoded := "" }

/-- The scan step with the camera open (stream 0 attached to the video
element) and no image yet. -/
def cameraWorld : World :=
  { initialWorld with
    ui := { initialUI with currentStep := 2 }
    video := some (some 0)
    liveStreams := [0]
    nextStream := 1 }

/-- C14 as the claim states it fails for a photo taken while the video has no
data: on the scan step with the camera open, reached by Start, Open Camera
and a grant, `capturePhoto` stores `data:,`, whose media type is empty, and
`detectTyreHealth` posts it with empty data declared as `image/png`. -/
theorem capture_without_pixels_not_png :
    run sampleParse initialWorld [.start, .openCamera, .cameraDone true] = some cameraWorld ∧
    (capturePhoto cameraWorld emptyFrame).ui.tyreImage = some "data:," ∧
    mediaTypeOf "data:," = some "" ∧
    (detectTyreHealth (capturePhoto cameraWorld emptyFrame)).inFlight
      = [{ mimeType := "image/png", data := some "" }] :=
  ⟨by rfl, by decide, by decide, by decide⟩

/-- C14, amended: for an image that is a data URL
`data:<mediatype>;base64,<payload>` with no comma in media type and payload,
`split(',')[1]` is the payload and the request `detectTyreHealth` posts
carries exactly that payload; a photo that `capturePhoto` takes of a frame
with non-zero width and height is a data URL whose media type is the
`image/png` that the request declares, and its payload is the data of the
request. -/
theorem detect_places_payload (w0 w : World) (mediaType payload : String) (frame : Frame)
    (himg : w0.ui.tyreImage = some (dataURL mediaType payload))
    (hm : ',' ∉ mediaType.toList) (hp : ',' ∉ payload.toList)
    (hv : w.video.isSome = true)
    (hw : 0 < frame.videoWidth) (hh : 0 < frame.videoHeight)
    (he : ',' ∉ frame.encoded.toList) :
    base64ImageData (dataURL mediaType payload) = some payload ∧
    (detectTyreHealth w0).inFlight =
      w0.inFlight ++ [{ mimeType := "image/png", data := some payload }] ∧
    (∃ r : InferenceRequest,
      (detectTyreHealth (capturePhoto w frame)).inFlight = w.inFlight ++ [r] ∧
      r.data = some frame.encoded ∧
      (capturePhoto w frame).ui.tyreImage = some (dataURL r.mimeType frame.encoded) ∧
      ((capturePhoto w frame).ui.tyreImage.bind mediaTypeOf) = some r.mimeType) := by
  have hcap := capturePhoto_tyreImage w frame hv
  rw [toDataURL_of_pixels _ _ _ _ hw hh] at hcap
  refine ⟨base64ImageData_dataURL _ _ hm hp, ?_, ?_⟩
  · rw [detectTyreHealth_of_image w0 _ himg (dataURL_ne_empty _ _),
      base64ImageData_dataURL _ _ hm hp]
  · refine ⟨{ mimeType := "image/png", data := some frame.encoded }, ?_, rfl, hcap.1, ?_⟩
    · rw [detectTyreHealth_of_image _ _ hcap.1 (dataURL_ne_empty _ _)]
      show (capturePhoto w frame).inFlight
        ++ [{ mimeType := "image/png",
              data := base64ImageData (dataURL "image/png" frame.encoded) }] = _
      rw [hcap.2, base64ImageData_dataURL _ _ (by decide) he]
    · rw [hcap.1]
      exact mediaTypeOf_png _

/-- A frame of two by two pixels. -/
def sampleFrame : Frame := { videoWidth := 2, videoHeight := 2, encoded := "AAAA" }

/-- C14, amended, applied to the scan step holding the sample PNG, and to a
photo of the sample frame taken on that step. -/
theorem detect_places_payload_witness :
    base64ImageData (dataURL "image/png" "iVBORw0KGgo=") = some "iVBORw0KGgo=" ∧
    (detectTyreHealth scanWorld).inFlight =
      scanWorld.inFlight ++ [{ mimeType := "image/png", data := some "iVBORw0KGgo=" }] ∧
    (∃ r : InferenceRequest,
      (detectTyreHealth (capturePhoto scanWorld sampleFrame)).inFlight
        = scanWorld.inFlight ++ [r] ∧
      r.data = some sampleFrame.encoded ∧
      (capturePhoto scanWorld sampleFrame).ui.tyreImage
        = some (dataURL r.mimeType sampleFrame.encoded) ∧
      ((capturePhoto scanWorld sampleFrame).ui.tyreImage.bind mediaTypeOf) = some r.mimeType) :=
  detect_places_payload scanWorld scanWorld "image/png" "iVBORw0KGgo=" sampleFrame
    (by decide) (by decide) (by decide) (by decide) (by decide) (by decide) (by decide)

/-! ## Steps of the page -/

theorem detectTry_currentStep (jsonParse : String → Except String JVal)
    (ui : UIState) (o : FetchOutcome) :
    (detectTry jsonParse ui o).1.currentStep
      = if detectSuccess jsonParse o = true then 3 else ui.currentStep := by
  cases o with
  | rejected message => rfl
  | notOk statusText => rfl
  | badBody message => rfl
  | ok result =>
    cases hr : responseText result with
    | none => simp [detectTry, detectSuccess, hr]
    | some jsonText =>
      cases hp : jsonParse (jsonArg jsonText) with
      | error message => simp [detectTry, detectSuccess, hr, hp]
      | ok parsedJson =>
        cases parsedJson with
        | undefined => simp [detectTry, detectSuccess, hr, hp, JVal.getProp]
        | null => simp [detectTry, detectSuccess, hr, hp, JVal.getProp]
        | bool b => simp [detectTry, detectSuccess, hr, hp, JVal.getProp]
        | num n => simp [detectTry, detectSuccess, hr, hp, JVal.getProp]
        | str t => simp [detectTry, detectSuccess, hr, hp, JVal.getProp]
        | arr xs => simp [detectTry, detectSuccess, hr, hp, JVal.getProp]
        | obj kvs =>
          simp only [detectTry, detectSuccess, hr, hp, JVal.getProp]
          cases kvs.lookup "score" <;> cases kvs.lookup "recommendation" <;>
            cases kvs.lookup "analysisDetails" <;> rfl

theorem detectTyreHealthDone_currentStep (jsonParse : String → Except String JVal)
    (ui : UIState) (o : FetchOutcome) :
    (detectTyreHealthDone jsonParse ui o).currentStep
      = if detectSuccess jsonParse o = true then 3 else ui.currentStep := by
  rw [← detectTry_currentStep]
  unfold detectTyreHealthDone
  rcases detectTry jsonParse ui o with ⟨ui1, _ | message⟩ <;> rfl

/-- Effect of one event on the step: it is kept, or the event is the start
button on step 1, a successful inference call, the outlet button on step 3,
or Start Over. -/
theorem step_currentStep (jsonParse : String → Except String JVal) (w w1 : World) (e : Event)
    (h : step jsonParse w e = some w1) :
    w1.ui.currentStep = w.ui.currentStep ∨
    (e = .start ∧ w.ui.currentStep = 1 ∧ w1.ui.currentStep = 2) ∨
    (∃ i o, e = .detectDone i o ∧ detectSuccess jsonParse o = true ∧ w1.ui.currentStep = 3) ∨
    (e = .findOutlet ∧ w.ui.currentStep = 3 ∧ w1.ui.currentStep = 4) ∨
    (e = .startOver ∧ w1.ui.currentStep = 1) := by
  cases e with
  | start =>
    simp only [step] at h
    split at h
    · rename_i hs
      cases h
      exact Or.inr (Or.inl ⟨rfl, by simpa [offersStart] using hs, by simp⟩)
    · cases h
  | selectFile file =>
    simp only [step] at h
    split at h
    · cases h; cases file <;> exact Or.inl (by simp [handleImageChange])
    · cases h
  | readDone i success =>
    simp only [step] at h
    split at h
    · cases h; exact Or.inl (by simp [onloadend])
    · cases h
  | openCamera =>
    simp only [step] at h
    split at h
    · cases h; exact Or.inl (by simp [startCamera])
    · cases h
  | cameraDone granted =>
    simp only [step] at h
    split at h
    · cases h
      cases granted
      · exact Or.inl (by simp [startCameraDone])
      · refine Or.inl ?_
        cases hv : w.video <;> simp [startCameraDone, hv]
    · cases h
  | capture frame =>
    simp only [step] at h
    split at h
    · cases h
      refine Or.inl ?_
      cases hv : w.video <;> simp [capturePhoto, hv]
    · cases h
  | analyze =>
    simp only [step] at h
    split at h
    · cases h
      refine Or.inl ?_
      simp only [commit_ui, detectTyreHealth]
      split
      · rfl
      · split <;> rfl
    · cases h
  | detectDone i o =>
    simp only [step] at h
    split at h
    · cases h
      by_cases hs : detectSuccess jsonParse o = true
      · exact Or.inr (Or.inr (Or.inl ⟨i, o, rfl, hs,
          by simp [detectTyreHealthDone_currentStep, hs]⟩))
      · exact Or.inl (by simp [detectTyreHealthDone_currentStep, hs])
    · cases h
  | findOutlet =>
    simp only [step] at h
    split at h
    · rename_i hs
      cases h
      have h3 : w.ui.currentStep = 3 := by
        simp only [offersResults, Bool.and_eq_true, beq_iff_eq] at hs
        exact hs.1
      exact Or.inr (Or.inr (Or.inr (Or.inl ⟨rfl, h3, by simp⟩)))
    · cases h
  | getLocation supported =>
    simp only [step] at h
    split at h
    · cases h
      cases supported <;> exact Or.inl (by simp [getGeolocation])
    · cases h
  | geoDone r =>
    simp only [step] at h
    split at h
    · cases r with
      | success coords => cases h; exact Or.inl (by simp [getGeolocationSuccess])
      | failure error => cases h; exact Or.inl (by simp [getGeolocationError])
    · cases h
  | startOver =>
    simp only [step] at h
    split at h
    · cases h; exact Or.inr (Or.inr (Or.inr (Or.inr ⟨rfl, by simp [resetApp]⟩)))
    · cases h

theorem run_currentStep (jsonParse : String → Except String JVal) (es : List Event) :
    ∀ w w1 : World, run jsonParse w es = some w1 →
    (w.ui.currentStep = 1 ∨ w.ui.currentStep = 2 ∨ w.ui.currentStep = 3 ∨ w.ui.currentStep = 4) →
    (w1.ui.currentStep = 1 ∨ w1.ui.currentStep = 2 ∨ w1.ui.currentStep = 3 ∨
      w1.ui.currentStep = 4) := by
  induction es with
  | nil =>
    intro w w1 hrun hw
    simp only [run] at hrun
    cases hrun
    exact hw
  | cons e es ih =>
    intro w w1 hrun hw
    simp only [run] at hrun
    cases hstep : step jsonParse w e with
    | none => rw [hstep] at hrun; cases hrun
    | some w2 =>
      rw [hstep] at hrun
      refine ih w2 w1 hrun ?_
      rcases step_currentStep jsonParse w w2 e hstep with hk | ⟨_, _, h2⟩ | ⟨_, _, _, _, h3⟩ |
        ⟨_, _, h4⟩ | ⟨_, h1⟩
      · rw [hk]; exact hw
      · exact Or.inr (Or.inl h2)
      · exact Or.inr (Or.inr (Or.inl h3))
      · exact Or.inr (Or.inr (Or.inr h4))
      · exact Or.inl h1

theorem run_append_one (jsonParse : String → Except String JVal) (es : List Event) (e : Event) :
    ∀ w w1 w2 : World, run jsonParse w es = some w1 → step jsonParse w1 e = some w2 →
    run jsonParse w (es ++ [e]) = some w2 := by
  induction es with
  | nil =>
    intro w w1 w2 hrun hstep
    simp only [run] at hrun
    cases hrun
    simp [run, hstep]
  | cons e0 es ih =>
    intro w w1 w2 hrun hstep
    simp only [run, List.cons_append] at hrun ⊢
    cases h0 : step jsonParse w e0 with
    | none => rw [h0] at hrun; cases hrun
    | some w3 =>
      rw [h0] at hrun
      simp only
      exact ih w3 w1 w2 hrun hstep

/-- C13: the page starts on step 1; in every reachable state, and in the
state one more event leads to, `currentStep` is 1, 2, 3 or 4; an event that
brings the page onto step 3 is a completed inference call that succeeded, one
that brings it onto step 4 is the outlet button pressed on step 3, one that
brings it onto step 2 is the start button pressed on step 1, and one that
brings it onto step 1 is Start Over, which runs `resetApp`. -/
theorem currentStep_transitions (jsonParse : String → Except String JVal) (es : List Event)
    (w w1 : World) (e : Event)
    (hrun : run jsonParse initialWorld es = some w) (hstep : step jsonParse w e = some w1) :
    initialWorld.ui.currentStep = 1 ∧
    (w.ui.currentStep = 1 ∨ w.ui.currentStep = 2 ∨ w.ui.currentStep = 3 ∨ w.ui.currentStep = 4) ∧
    (w1.ui.currentStep = 1 ∨ w1.ui.currentStep = 2 ∨ w1.ui.currentStep = 3 ∨
      w1.ui.currentStep = 4) ∧
    (w1.ui.currentStep = 3 → w.ui.currentStep ≠ 3 →
      ∃ i o, e = .detectDone i o ∧ detectSuccess jsonParse o = true) ∧
    (w1.ui.currentStep = 4 → w.ui.currentStep ≠ 4 → e = .findOutlet ∧ w.ui.currentStep = 3) ∧
    (w1.ui.currentStep = 2 → w.ui.currentStep ≠ 2 → e = .start ∧ w.ui.currentStep = 1) ∧
    (w1.ui.currentStep = 1 → w.ui.currentStep ≠ 1 →
      e = .startOver ∧ w1.ui = (resetApp w).ui) := by
  have hinit : initialWorld.ui.currentStep = 1 ∨ initialWorld.ui.currentStep = 2 ∨
      initialWorld.ui.currentStep = 3 ∨ initialWorld.ui.currentStep = 4 := Or.inl rfl
  refine ⟨rfl, run_currentStep jsonParse es _ _ hrun hinit,
    run_currentStep jsonParse _ _ _ (run_append_one jsonParse es e _ _ _ hrun hstep) hinit,
    ?_, ?_, ?_, ?_⟩
  · intro h3 hne
    rcases step_currentStep jsonParse w w1 e hstep with hk | ⟨_, _, h⟩ | ⟨i, o, he, hs, _⟩ |
      ⟨_, _, h⟩ | ⟨_, h⟩
    · exact absurd (hk ▸ h3) hne
    · omega
    · exact ⟨i, o, he, hs⟩
    · omega
    · omega
  · intro h4 hne
    rcases step_currentStep jsonParse w w1 e hstep with hk | ⟨_, _, h⟩ | ⟨i, o, he, hs, h⟩ |
      ⟨he, hw, _⟩ | ⟨_, h⟩
    · exact absurd (hk ▸ h4) hne
    · omega
    · omega
    · exact ⟨he, hw⟩
    · omega
  · intro h2 hne
    rcases step_currentStep jsonParse w w1 e hstep with hk | ⟨he, hw, _⟩ | ⟨i, o, he, hs, h⟩ |
      ⟨_, _, h⟩ | ⟨_, h⟩
    · exact absurd (hk ▸ h2) hne
    · exact ⟨he, hw⟩
    · omega
    · omega
    · omega
  · intro h1 hne
    rcases step_currentStep jsonParse w w1 e hstep with hk | ⟨_, _, h⟩ | ⟨i, o, he, hs, h⟩ |
      ⟨_, _, h⟩ | ⟨he, _⟩
    · exact absurd (hk ▸ h1) hne
    · omega
    · omega
    · omega
    · subst he
      refine ⟨rfl, ?_⟩
      simp only [step] at hstep
      split at hstep
      · cases hstep; simp
      · cases hstep

/-- C13 applied to the scan step with an analysis pending and the completion
that answers with a score of 8. -/
theorem currentStep_transitions_witness :
    initialWorld.ui.currentStep = 1 ∧
    (analysingWorld.ui.currentStep = 1 ∨ analysingWorld.ui.currentStep = 2 ∨
      analysingWorld.ui.currentStep = 3 ∨ analysingWorld.ui.currentStep = 4) ∧
    (resultsWorld.ui.currentStep = 1 ∨ resultsWorld.ui.currentStep = 2 ∨
      resultsWorld.ui.currentStep = 3 ∨ resultsWorld.ui.currentStep = 4) ∧
    (resultsWorld.ui.currentStep = 3 → analysingWorld.ui.currentStep ≠ 3 →
      ∃ i o, Event.detectDone 0 (answerWith goodText) = .detectDone i o ∧
        detectSuccess sampleParse o = true) ∧
    (resultsWorld.ui.currentStep = 4 → analysingWorld.ui.currentStep ≠ 4 →
      Event.detectDone 0 (answerWith goodText) = .findOutlet ∧
        analysingWorld.ui.currentStep = 3) ∧
    (resultsWorld.ui.currentStep = 2 → analysingWorld.ui.currentStep ≠ 2 →
      Event.detectDone 0 (answerWith goodText) = .start ∧ analysingWorld.ui.currentStep = 1) ∧
    (resultsWorld.ui.currentStep = 1 → analysingWorld.ui.currentStep ≠ 1 →
      Event.detectDone 0 (answerWith goodText) = .startOver ∧
        resultsWorld.ui = (resetApp analysingWorld).ui) :=
  currentStep_transitions sampleParse
    [.start, .selectFile (some sampleFile), .readDone 0 true, .analyze]
    analysingWorld resultsWorld (.detectDone 0 (answerWith goodText)) (by rfl) (by rfl)

/-! ## Loading flag -/

@[simp] theorem commit_pendingGeo (w : World) : (commit w).pendingGeo = w.pendingGeo := by
  unfold commit
  split
  · split <;> rfl
  · rfl

@[simp] theorem closeCamera_pendingGeo (w : World) :
    (closeCamera w).pendingGeo = w.pendingGeo := by
  unfold closeCamera
  split <;> rfl

theorem detectTyreHealthDone_loading (jsonParse : String → Except String JVal) (ui : UIState)
    (o : FetchOutcome) : (detectTyreHealthDone jsonParse ui o).loading = false := by
  unfold detectTyreHealthDone
  rcases detectTry jsonParse ui o with ⟨ui1, _ | message⟩ <;> rfl

/-- Start and completion paths of the two operations: with an image,
`detectTyreHealth` sets the loading flag, clears the error and posts a
request, and `getGeolocation` sets the flag, clears the error and registers
the callbacks; every completion (any outcome of the inference call, position
found, position error, geolocation unsupported) ends with the flag false. -/
theorem loading_set_on_start_cleared_on_completion
    (jsonParse : String → Except String JVal) (w : World) (img : String) (o : FetchOutcome)
    (coords : Coords) (error : GeoError)
    (himg : w.ui.tyreImage = some img) (hne : (img == "") = false) :
    (detectTyreHealth w).ui.loading = true ∧
    (detectTyreHealth w).ui.errorMessage = "" ∧
    (detectTyreHealth w).inFlight.length = w.inFlight.length + 1 ∧
    (getGeolocation w true).ui.loading = true ∧
    (getGeolocation w true).ui.errorMessage = "" ∧
    (getGeolocation w true).pendingGeo = w.pendingGeo + 1 ∧
    (detectTyreHealthDone jsonParse w.ui o).loading = false ∧
    (getGeolocationSuccess w coords).ui.loading = false ∧
    (getGeolocationError w error).ui.loading = false ∧
    (getGeolocation w false).ui.loading = false := by
  rw [detectTyreHealth_of_image w img himg hne]
  exact ⟨rfl, rfl, by simp, rfl, rfl, rfl, detectTyreHealthDone_loading _ _ _, rfl, rfl, rfl⟩

/-- Effect of one event on the loading flag: a state in which the flag
implies a pending operation is followed by such a state. -/
theorem step_loading_pending (jsonParse : String → Except String JVal) (w w1 : World)
    (e : Event) (h : step jsonParse w e = some w1)
    (hw : w.ui.loading = true → w.inFlight ≠ [] ∨ 0 < w.pendingGeo) :
    w1.ui.loading = true → w1.inFlight ≠ [] ∨ 0 < w1.pendingGeo := by
  cases e with
  | start =>
    simp only [step] at h
    split at h
    · cases h; simpa using hw
    · cases h
  | selectFile file =>
    simp only [step] at h
    split at h
    · cases h; cases file <;> simpa [handleImageChange] using hw
    · cases h
  | readDone i success =>
    simp only [step] at h
    split at h
    · cases h; simpa [onloadend] using hw
    · cases h
  | openCamera =>
    simp only [step] at h
    split at h
    · cases h; simpa [startCamera] using hw
    · cases h
  | cameraDone granted =>
    simp only [step] at h
    split at h
    · cases h
      cases granted
      · simpa [startCameraDone] using hw
      · cases hv : w.video <;> simpa [startCameraDone, hv] using hw
    · cases h
  | capture frame =>
    simp only [step] at h
    split at h
    · cases h
      cases hv : w.video <;> simpa [capturePhoto, hv] using hw
    · cases h
  | analyze =>
    simp only [step] at h
    split at h
    · cases h
      cases hi : w.ui.tyreImage with
      | none => simpa [detectTyreHealth, hi] using hw
      | some img =>
        by_cases hne : (img == "") = true
        · simpa [detectTyreHealth, hi, hne] using hw
        · intro _
          left
          simp [detectTyreHealth, hi, hne]
    · cases h
  | detectDone i o =>
    simp only [step] at h
    split at h
    · cases h
      intro hl
      simp [detectTyreHealthDone_loading] at hl
    · cases h
  | findOutlet =>
    simp only [step] at h
    split at h
    · cases h; simpa using hw
    · cases h
  | getLocation supported =>
    simp only [step] at h
    split at h
    · cases h
      cases supported
      · intro hl
        simp [getGeolocation] at hl
      · intro _
        right
        simp [getGeolocation]
    · cases h
  | geoDone r =>
    simp only [step] at h
    split at h
    · cases r with
      | success coords => cases h; intro hl; simp [getGeolocationSuccess] at hl
      | failure error => cases h; intro hl; simp [getGeolocationError] at hl
    · cases h
  | startOver =>
    simp only [step] at h
    split at h
    · cases h; intro hl; simp [resetApp] at hl
    · cases h

/-- In every reachable state a set loading flag means that an inference
request or a position request is pending. -/
theorem loading_implies_pending (jsonParse : String → Except String JVal) (es : List Event) :
    ∀ w w1 : World, run jsonParse w es = some w1 →
    (w.ui.loading = true → w.inFlight ≠ [] ∨ 0 < w.pendingGeo) →
    w1.ui.loading = true → w1.inFlight ≠ [] ∨ 0 < w1.pendingGeo := by
  induction es with
  | nil =>
    intro w w1 hrun hw
    simp only [run] at hrun
    cases hrun
    exact hw
  | cons e es ih =>
    intro w w1 hrun hw
    simp only [run] at hrun
    cases hstep : step jsonParse w e with
    | none => rw [hstep] at hrun; cases hrun
    | some w2 =>
      rw [hstep] at hrun
      exact ih w2 w1 hrun (step_loading_pending jsonParse w w2 e hstep hw)

/-- Events that start an analysis and press Start Over while the request is
pending. -/
def resetDuringAnalysis : List Event :=
  [.start, .selectFile (some sampleFile), .readDone 0 true, .analyze, .startOver]

/-- C11: after the events `resetDuringAnalysis` the inference request started
by `detectTyreHealth` is still pending and the loading flag is false; before
the last event, Start Over, the request was pending with the flag true. -/
theorem loading_false_while_request_pending :
    (run sampleParse initialWorld resetDuringAnalysis.dropLast).map
        (fun w => (w.inFlight.length, w.pendingGeo, w.ui.loading)) = some (1, 0, true) ∧
    (run sampleParse initialWorld resetDuringAnalysis).map
        (fun w => (w.inFlight.length, w.pendingGeo, w.ui.loading)) = some (1, 0, false) := by
  decide

end CeatTyre
